import Mathlib

/-!
Shallow embedding of the wolt-sdk repository (Python) for checking its
natural-language specification.  The definitions below are translated from
the source files `src/wolt_api_mcp/{models,client,exceptions,server}.py`;
machine-level details (HTTP transport, wall-clock time) are modelled as
explicit parameters.  Times and JSON numbers are rationals; strings are
Lean strings (the repository only manipulates them with `lower`, `strip`,
containment and concatenation, which agree with the Lean counterparts on
the ASCII data involved).
-/

namespace WoltSDK

/-! ### String containment (Python's `needle in hay`) -/

/-- Whether `needle` occurs at the very start of `hay` (character lists). -/
def startsWithL : List Char → List Char → Bool
  | [], _ => true
  | _ :: _, [] => false
  | n :: ns, h :: hs => n == h && startsWithL ns hs

/-- Whether `needle` occurs contiguously anywhere in `hay`; mirrors Python's
substring containment `needle in hay` (the empty needle is contained). -/
def containsSeq (needle : List Char) : List Char → Bool
  | [] => startsWithL needle []
  | h :: hs => startsWithL needle (h :: hs) || containsSeq needle hs

/-- Python's `needle in hay` on strings. -/
def strContains (hay needle : String) : Bool :=
  containsSeq needle.toList hay.toList

/-- Python's `str.lower()`; the repository only lower-cases ASCII data, on
which per-character lowering agrees with Python. -/
def strLower (s : String) : String :=
  ⟨s.data.map Char.toLower⟩

/-- Leading-whitespace removal on a character list. -/
def dropSpaces : List Char → List Char
  | [] => []
  | c :: cs => if c.isWhitespace then dropSpaces cs else c :: cs

/-- Python's `str.strip()`: whitespace removed from both ends (the data
stripped by the repository is ASCII, where the two whitespace notions
agree). -/
def strTrim (s : String) : String :=
  ⟨((dropSpaces s.data).reverse |> dropSpaces).reverse⟩

instance {ε α : Type} [DecidableEq ε] [DecidableEq α] : DecidableEq (Except ε α)
  | .error e, .error f =>
    if h : e = f then isTrue (by rw [h]) else isFalse (by simp [h])
  | .error _, .ok _ => isFalse (by simp)
  | .ok _, .error _ => isFalse (by simp)
  | .ok a, .ok b =>
    if h : a = b then isTrue (by rw [h]) else isFalse (by simp [h])

/-! ### Loosely-typed JSON values (the upstream response bodies) -/

/-- A JSON value as the Python client sees it after `response.json()`. -/
inductive JVal where
  | jstr (s : String)
  | jnum (q : ℚ)
  | jbool (b : Bool)
  | jnull
  | jarr (xs : List JVal)
  | jobj (fields : List (String × JVal))

/-- Python truthiness of a JSON value (`if value:`). -/
def jTruthy : JVal → Bool
  | .jnull => false
  | .jbool b => b
  | .jnum q => decide (q ≠ 0)
  | .jstr s => decide (s ≠ "")
  | .jarr xs => !xs.isEmpty
  | .jobj fs => !fs.isEmpty

/-- Python truthiness of an optional value (`None` is falsy). -/
def optTruthy : Option JVal → Bool
  | none => false
  | some v => jTruthy v

/-- Dictionary lookup `d.get(k)` on an association list. -/
def jGet (fs : List (String × JVal)) (k : String) : Option JVal :=
  match fs.find? (fun p => p.1 == k) with
  | some p => some p.2
  | none => none

/-! ### The exception taxonomy (`src/wolt_api_mcp/exceptions.py`)

`WoltAPIError` is the root platform error (a direct `Exception` subclass);
`RestaurantNotFoundError`, `RateLimitError` and `APIUnavailableError` each
subclass it.  `ValueError` is Python's builtin, used by the tool server's
first `except` clause. -/

inductive ExcClass where
  | exception
  | valueError
  | woltAPIError
  | restaurantNotFoundError
  | rateLimitError
  | apiUnavailableError
  deriving DecidableEq, Repr

/-- The declared base class of each exception class. -/
def superclass : ExcClass → Option ExcClass
  | .exception => none
  | .valueError => some .exception
  | .woltAPIError => some .exception
  | .restaurantNotFoundError => some .woltAPIError
  | .rateLimitError => some .woltAPIError
  | .apiUnavailableError => some .woltAPIError

/-- The inheritance chain of a class, up to the given depth. -/
def superChain : ℕ → ExcClass → List ExcClass
  | 0, c => [c]
  | n + 1, c =>
    c :: (match superclass c with
          | some p => superChain n p
          | none => [])

/-- Python's `isinstance`-style subclass test (the chain has at most six
classes, so fuel 6 is exact). -/
def isSubclassOf (c d : ExcClass) : Bool :=
  decide (d ∈ superChain 6 c)

/-- A raised Python exception: its class and its message. -/
structure PyExc where
  cls : ExcClass
  msg : String
  deriving DecidableEq, Repr

/-! ### The validated venue model (`src/wolt_api_mcp/models.py`) -/

/-- A validated `Restaurant` record (pydantic model).  Values of this type
only arise through `Restaurant.validate` below. -/
structure Restaurant where
  name : String
  slug : String
  is_online : Bool
  cuisine_types : List String
  rating : Option ℚ
  delivery_estimate : Option String
  image_url : Option String
  location : Option String
  city : Option String
  deriving DecidableEq, Repr

/-- The `is_open` read-only property: an alias for `is_online`. -/
def Restaurant.is_open (r : Restaurant) : Bool := r.is_online

/-- A character allowed by the slug pattern `^[a-z0-9\-_]+$`. -/
def slugChar (c : Char) : Bool :=
  (97 ≤ c.toNat && c.toNat ≤ 122) || ('0' ≤ c && c ≤ '9') || c == '-' || c == '_'

/-- The raw (pre-validation) field values handed to the `Restaurant`
constructor; JSON-typed where the client passes raw response values. -/
structure RestaurantInput where
  name : JVal := .jstr ""
  slug : JVal := .jstr ""
  is_online : JVal := .jbool false
  cuisine_types : List String := []
  rating : Option JVal := none
  delivery_estimate : Option JVal := none
  image_url : Option JVal := none
  location : Option JVal := none
  city : Option JVal := none

/-- Field `name`: a string of 1–200 characters that is non-empty after
stripping; the stored value is the stripped string (the `validate_name`
validator). -/
def validateName : JVal → Except String String
  | .jstr s =>
    if s.length < 1 then .error "name: ensure this value has at least 1 character"
    else if 200 < s.length then .error "name: ensure this value has at most 200 characters"
    else
      let t := strTrim s
      if t = "" then .error "Restaurant name cannot be empty" else .ok t
  | _ => .error "name: str type expected"

/-- Field `slug`: pydantic v2 — the version this package runs under, since
`server.py` imports `fastmcp`, which requires pydantic ≥ 2 — checks the
field's declared constraints (length 3–200 and the pattern
`^[a-z0-9\-_]+$`) against the raw input first; the deprecated v1-style
after-validator `validate_slug` then lower-cases the accepted value.  So
mixed-case input is rejected by the pattern, and the stored value is the
lower-casing of an input that already matched the lower-case-only pattern
(hence equals it, `strLower_eq_self`).  Under pydantic v1 the `pattern=`
keyword would not be a recognized constraint and no pattern check would
run at all; the repository's two slug tests (mixed case accepted, spaces
rejected) cannot both pass under either version — see the C4 theorem. -/
def validateSlug : JVal → Except String String
  | .jstr s =>
    if s.length < 3 then .error "slug: ensure this value has at least 3 characters"
    else if 200 < s.length then .error "slug: ensure this value has at most 200 characters"
    else if s.toList.all slugChar then .ok (strLower s)
    else .error "slug: string does not match regex"
  | _ => .error "slug: str type expected"

/-- Field `is_online`: a boolean is required. -/
def validateOnline : JVal → Except String Bool
  | .jbool b => .ok b
  | _ => .error "is_online: value could not be interpreted as a boolean"

/-- Field `rating`: optional, a number in `[0.0, 5.0]`. -/
def validateRating : Option JVal → Except String (Option ℚ)
  | none => .ok none
  | some .jnull => .ok none
  | some (.jnum q) =>
    if q < 0 then .error "rating: ensure this value is greater than or equal to 0.0"
    else if 5 < q then .error "rating: ensure this value is less than or equal to 5.0"
    else .ok (some q)
  | some _ => .error "rating: value is not a valid float"

/-- An optional string field with a maximum length (`delivery_estimate`,
`image_url`, `location`, `city`). -/
def validateOptStr (label : String) (maxLen : ℕ) : Option JVal → Except String (Option String)
  | none => .ok none
  | some .jnull => .ok none
  | some (.jstr s) =>
    if maxLen < s.length then .error (label ++ ": ensure this value is short enough")
    else .ok (some s)
  | some _ => .error (label ++ ": str type expected")

/-- The `validate_cuisine_types` validator: strip every entry and drop the
ones that are empty after stripping. -/
def validateCuisines (l : List String) : List String :=
  l.filterMap (fun c => if strTrim c = "" then none else some (strTrim c))

/-- Construction of a validated `Restaurant`: every field is validated; on
any violation construction fails (pydantic raises `ValidationError`; it
collects every field's errors, which this embedding represents by the
first one — success and the stored values agree). -/
def Restaurant.validate (inp : RestaurantInput) : Except String Restaurant := do
  let name ← validateName inp.name
  let slug ← validateSlug inp.slug
  let isOnline ← validateOnline inp.is_online
  let cuisines := validateCuisines inp.cuisine_types
  let rating ← validateRating inp.rating
  let de ← validateOptStr "delivery_estimate" 50 inp.delivery_estimate
  let iu ← validateOptStr "image_url" 500 inp.image_url
  let loc ← validateOptStr "location" 200 inp.location
  let city ← validateOptStr "city" 100 inp.city
  .ok ⟨name, slug, isOnline, cuisines, rating, de, iu, loc, city⟩

/-! ### Raw venue objects and `WoltAPI._parse_restaurant`
(`src/wolt_api_mcp/client.py`, lines 239–291) -/

/-- A raw venue dictionary from the upstream response, restricted to the keys
the parser reads.  A key absent from the dictionary is `none`; a key present
with JSON `null` is `some .jnull`.  The `tags` and `venue_preview_items`
keys, when present, hold lists (the only shape the source iterates without
raising). -/
structure RawVenue where
  name : Option JVal := none
  slug : Option JVal := none
  online : Option JVal := none
  tags : List JVal := []
  estimate : Option JVal := none
  rating : Option JVal := none
  image : Option JVal := none
  venue_preview_items : List JVal := []

/-- `_parse_restaurant`'s tag extraction: `[tag for tag in tags if
isinstance(tag, str)]`. -/
def extractCuisines (v : RawVenue) : List String :=
  v.tags.filterMap (fun t => match t with | .jstr s => some s | _ => none)

/-- `_parse_restaurant`'s delivery estimate: the `"estimate"` sub-field of a
truthy `"estimate"` dictionary. -/
def extractEstimate (v : RawVenue) : Option JVal :=
  match v.estimate with
  | some (.jobj fs) => if fs.isEmpty then none else jGet fs "estimate"
  | _ => none

/-- `_parse_restaurant`'s image URL: the `"url"` of a truthy `"image"`
dictionary; if that value is falsy, the fallback re-assigns it from the
`"image"` dictionary of the first `venue_preview_items` entry (when that
entry is a dictionary containing `"image"` as a dictionary — otherwise no
assignment happens and the first value is kept). -/
def extractImageUrl (v : RawVenue) : Option JVal :=
  let first : Option JVal :=
    match v.image with
    | some (.jobj fs) => if fs.isEmpty then none else jGet fs "url"
    | _ => none
  if optTruthy first then first
  else
    match v.venue_preview_items with
    | .jobj fs :: _ =>
      (match jGet fs "image" with
       | some (.jobj ifs) => jGet ifs "url"
       | _ => first)
    | _ => first

/-- `_parse_restaurant`'s rating: the `"score"` of a truthy `"rating"`
dictionary. -/
def extractRating (v : RawVenue) : Option JVal :=
  match v.rating with
  | some (.jobj fs) => if fs.isEmpty then none else jGet fs "score"
  | _ => none

/-- The raw constructor arguments `_parse_restaurant` passes to
`Restaurant(...)`: `name`/`slug` default to the empty string and `online`
to `False` when absent. -/
def rawInput (v : RawVenue) : RestaurantInput where
  name := v.name.getD (.jstr "")
  slug := v.slug.getD (.jstr "")
  is_online := v.online.getD (.jbool false)
  cuisine_types := extractCuisines v
  rating := extractRating v
  delivery_estimate := extractEstimate v
  image_url := extractImageUrl v
  location := none
  city := none

/-- `WoltAPI._parse_restaurant`: build the constructor arguments from the raw
venue and construct the validated `Restaurant` (a pydantic
`ValidationError` is the `.error` case and propagates to the caller). -/
def parseRestaurant (v : RawVenue) : Except String Restaurant :=
  Restaurant.validate (rawInput v)

/-! ### `WoltAPI.get_nearby_restaurants` (`client.py`, lines 163–200) -/

/-- An entry of a section's `"items"` list: `item.get("venue", {})` followed
by `if venue:` skips an item whose venue dictionary is absent or empty;
both are `none` here. -/
structure RawItem where
  venue : Option RawVenue := none

/-- An entry of the response's `"sections"` list (its `"items"` defaulting to
`[]` when absent). -/
structure RawSection where
  items : List RawItem := []

/-- A parsed nearby-venues response document (its `"sections"` defaulting to
`[]` when absent). -/
structure NearbyResponse where
  sections : List RawSection := []

/-- The inner `for item in items` loop: each present venue is parsed and
appended; a validation error propagates. -/
def parseItemsLoop : List RawItem → Except String (List Restaurant)
  | [] => .ok []
  | it :: rest =>
    match it.venue with
    | none => parseItemsLoop rest
    | some v => do
      let r ← parseRestaurant v
      let rs ← parseItemsLoop rest
      .ok (r :: rs)

/-- The outer `for section in sections` loop. -/
def parseSectionsLoop : List RawSection → Except String (List Restaurant)
  | [] => .ok []
  | s :: rest => do
    let rs1 ← parseItemsLoop s.items
    let rs2 ← parseSectionsLoop rest
    .ok (rs1 ++ rs2)

/-- `WoltAPI.get_nearby_restaurants` applied to an already-received response
document: every present venue object is parsed, in document order, and the
list returned (HTTP-level failures are modelled separately by
`makeRequest`). -/
def getNearbyRestaurants (resp : NearbyResponse) : Except String (List Restaurant) :=
  parseSectionsLoop resp.sections

/-- The present venue objects of a response, in document order (specification
side: used to state what `getNearbyRestaurants` returns). -/
def presentVenues (resp : NearbyResponse) : List RawVenue :=
  (resp.sections.map (fun s => s.items.filterMap (fun it => it.venue))).flatten

/-- Parsing a flat list of venues in order (specification side). -/
def parseList : List RawVenue → Except String (List Restaurant)
  | [] => .ok []
  | v :: rest => do
    let r ← parseRestaurant v
    let rs ← parseList rest
    .ok (r :: rs)

/-- The cuisine tags as the claim words them: exactly the string-typed
entries of the raw `"tags"` list, non-string entries dropped. -/
def stringTypedTags (v : RawVenue) : List String :=
  v.tags.filterMap (fun t => match t with | .jstr s => some s | _ => none)

/-- The tags actually stored: string-typed entries, stripped, entries empty
after stripping dropped (the model's `validate_cuisine_types`). -/
def strippedTags (v : RawVenue) : List String :=
  (stringTypedTags v).filterMap (fun s => if strTrim s = "" then none else some (strTrim s))

/-! ### `WoltAPI.find_restaurants` (`client.py`, lines 202–237) -/

/-- The inner `for cuisine in restaurant.cuisine_types` loop: stop at the
first cuisine containing the query (the source `break`s after one
append). -/
def cuisineLoopMatch (ql : String) : List String → Bool
  | [] => false
  | c :: cs => if strContains (strLower c) ql then true else cuisineLoopMatch ql cs

/-- The filtering loop of `find_restaurants`: a venue whose name contains the
lower-cased query is appended (and the loop `continue`s); otherwise it is
appended once if some cuisine tag contains the query. -/
def findGo (ql : String) : List Restaurant → List Restaurant
  | [] => []
  | r :: rest =>
    if strContains (strLower r.name) ql then r :: findGo ql rest
    else if cuisineLoopMatch ql r.cuisine_types then r :: findGo ql rest
    else findGo ql rest

/-- `find_restaurants`' filter applied to an already-fetched venue list. -/
def findRestaurantsFiltered (query : String) (rs : List Restaurant) : List Restaurant :=
  findGo (strLower query) rs

/-- Whether a venue matches a query: name containment or some cuisine-tag
containment, both case-insensitive (specification side). -/
def matchesQuery (query : String) (r : Restaurant) : Bool :=
  strContains (strLower r.name) (strLower query)
    || r.cuisine_types.any (fun c => strContains (strLower c) (strLower query))

/-- The upstream nearby-venues endpoint as a function of the request's
`lat`, `lon` and `radius` query parameters: the response document it
returns (executions in which every HTTP request succeeds). -/
def Upstream : Type := ℚ → ℚ → ℕ → NearbyResponse

/-- `WoltAPI.get_nearby_restaurants` including the HTTP call: one GET to
`/v1/pages/restaurants` with the given coordinates and radius (default
2000 in the source), then response parsing. -/
def getNearbyClient (env : Upstream) (lat lon : ℚ) (radius : ℕ) :
    Except String (List Restaurant) :=
  getNearbyRestaurants (env lat lon radius)

/-- `WoltAPI.find_restaurants`: a nearby-venues query with the fixed
5000-meter radius, then the name/cuisine filter. -/
def findRestaurants (env : Upstream) (query : String) (lat lon : ℚ) :
    Except String (List Restaurant) :=
  (getNearbyClient env lat lon 5000).map (findRestaurantsFiltered query)

/-! ### `WoltAPI.is_restaurant_open` (`client.py`, lines 88–161) -/

/-- A search anchor of the country-wide scan: label, latitude, longitude and
radius in meters. -/
structure Anchor where
  label : String
  lat : ℚ
  lon : ℚ
  radius : ℕ
  deriving DecidableEq, Repr

/-- The compiled-in `israeli_locations` table, in source order
(`client.py`, lines 108–140). -/
def israeliLocations : List Anchor :=
  [⟨"Tel Aviv Center", 32.0853, 34.7818, 8000⟩,
   ⟨"Tel Aviv Dizengoff", 32.0740, 34.7749, 8000⟩,
   ⟨"North Tel Aviv", 32.1200, 34.8000, 12000⟩,
   ⟨"South Tel Aviv", 32.0300, 34.7500, 10000⟩,
   ⟨"East Tel Aviv", 32.0800, 34.8500, 12000⟩,
   ⟨"Jerusalem Center", 31.7683, 35.2137, 15000⟩,
   ⟨"Jerusalem North", 31.8500, 35.2000, 12000⟩,
   ⟨"Haifa", 32.7940, 34.9896, 12000⟩,
   ⟨"Haifa Bay", 32.8200, 35.0700, 10000⟩,
   ⟨"Nazareth", 32.7022, 35.2973, 8000⟩,
   ⟨"Netanya", 32.3215, 34.8532, 10000⟩,
   ⟨"Kfar Saba", 32.1743, 34.9077, 8000⟩,
   ⟨"Rehovot", 31.8969, 34.8186, 10000⟩,
   ⟨"Be'er Sheva", 31.2587, 34.8008, 15000⟩,
   ⟨"Ashkelon", 31.6688, 34.5742, 8000⟩,
   ⟨"Ashdod", 31.7940, 34.6440, 8000⟩,
   ⟨"Modi'in", 31.8970, 35.0098, 8000⟩,
   ⟨"Eilat", 29.5581, 34.9482, 5000⟩,
   ⟨"Tiberias", 32.7922, 35.5311, 6000⟩,
   ⟨"Kiryat Shmona", 33.2074, 35.5692, 5000⟩]

/-- The inner `for restaurant in restaurants` loop: the online flag of the
first venue whose slug equals the requested one (exact, case-sensitive
comparison). -/
def findSlugIn (rs : List Restaurant) (slug : String) : Option Bool :=
  match rs with
  | [] => none
  | r :: rest => if r.slug = slug then some r.is_online else findSlugIn rest slug

/-- The anchor scan of `is_restaurant_open`: query each anchor in order;
return the matching venue's online flag at the first anchor whose results
contain the slug; after the whole table raise
`WoltAPIError("Unknown slug: {slug}")`.  A parse failure at an anchor is a
non-`WoltAPIError` exception and is wrapped by the outer handler.  The
second component counts the anchor queries issued. -/
def scanAnchors (env : Upstream) (slug : String) :
    List Anchor → (Except PyExc Bool) × ℕ
  | [] => (.error ⟨.woltAPIError, "Unknown slug: " ++ slug⟩, 0)
  | a :: rest =>
    match getNearbyClient env a.lat a.lon a.radius with
    | .error m => (.error ⟨.woltAPIError, "Error checking restaurant status: " ++ m⟩, 1)
    | .ok rs =>
      match findSlugIn rs slug with
      | some b => (.ok b, 1)
      | none =>
        let (o, n) := scanAnchors env slug rest
        (o, n + 1)

/-- `WoltAPI.is_restaurant_open`: scan the fixed anchor table. -/
def isRestaurantOpen (env : Upstream) (slug : String) : (Except PyExc Bool) × ℕ :=
  scanAnchors env slug israeliLocations

/-- The outcome of one anchor's query as seen by the scan: the parsed venue
list searched for the slug (specification side, to phrase hypotheses about
a single anchor). -/
def anchorProbe (env : Upstream) (slug : String) (a : Anchor) :
    Except String (Option Bool) :=
  (getNearbyClient env a.lat a.lon a.radius).map (fun rs => findSlugIn rs slug)

/-! ### `WoltAPI._make_request` (`client.py`, lines 47–86) -/

/-- What one HTTP attempt yields: a status code with a parsed JSON body, or a
low-level transport failure (`requests.exceptions.RequestException`). -/
inductive HResp where
  | status (code : ℕ) (body : JVal)
  | transportError (msg : String)

/-- The text of the `HTTPError` that `raise_for_status()` produces for a
non-enumerated client-error status; the surrounding handler wraps it in a
`WoltAPIError`. -/
def httpErrText (code : ℕ) : String :=
  toString code ++ " Client Error"

/-- What handling one response does next. -/
inductive RequestStep where
  | done (out : Except PyExc JVal)
  | sleepRetry

/-- The status dispatch of `_make_request` on one response: 404, then 429
(retry once when still allowed, else `RateLimitError`), then 430, then any
status ≥ 500; any remaining non-2xx raises through `raise_for_status()`
and is wrapped as a `WoltAPIError` by the `RequestException` handler; a
transport failure is wrapped the same way; otherwise the parsed JSON body
is returned. -/
def handleResponse (r : HResp) (retryAllowed : Bool) : RequestStep :=
  match r with
  | .transportError m => .done (.error ⟨.woltAPIError, "Request failed: " ++ m⟩)
  | .status code body =>
    if code = 404 then
      .done (.error ⟨.restaurantNotFoundError, "Restaurant not found (404)"⟩)
    else if code = 429 then
      if retryAllowed then .sleepRetry
      else .done (.error ⟨.rateLimitError, "Rate limit exceeded (429)"⟩)
    else if code = 430 then
      .done (.error ⟨.apiUnavailableError,
        "API unavailable - check headers or endpoint (430)"⟩)
    else if 500 ≤ code then
      .done (.error ⟨.apiUnavailableError,
        "Server error (" ++ toString code ++ ")"⟩)
    else if 400 ≤ code then
      .done (.error ⟨.woltAPIError, "Request failed: " ++ httpErrText code⟩)
    else
      .done (.ok body)

/-- With the retry already spent, handling a response never asks to retry
again. -/
theorem handleResponse_false_ne (r : HResp) :
    handleResponse r false ≠ .sleepRetry := by
  cases r with
  | transportError m => simp [handleResponse]
  | status code body =>
    simp only [handleResponse]
    repeat' split <;> try simp

/-- The observable trace of one `_make_request` call: its outcome, the number
of HTTP requests issued, and the durations of the `time.sleep(5.0)`
suspensions taken on a 429. -/
structure ReqTrace where
  outcome : Except PyExc JVal
  requests : ℕ
  retrySleeps : List ℚ

/-- `_make_request` with `retry_on_rate_limit=True` (the default at every
call site): handle the first response; on a 429 sleep 5.0 seconds and
re-issue the identical request exactly once, with the retry disabled, so
the second response is handled purely by status. -/
def makeRequest (r1 r2 : HResp) : ReqTrace :=
  match handleResponse r1 true with
  | .done out => ⟨out, 1, []⟩
  | .sleepRetry =>
    match handleResponse r2 false with
    | .done out => ⟨out, 2, [5]⟩
    | .sleepRetry =>
      -- unreachable (`handleResponse_false_ne`): with the retry spent a 429
      -- raises, which is the value written here
      ⟨.error ⟨.rateLimitError, "Rate limit exceeded (429)"⟩, 2, [5]⟩

/-! ### `WoltAPI._rate_limit` (`client.py`, lines 36–45)

Wall-clock time is a rational number of seconds.  `time.sleep(x)` advances
the clock by exactly `x` and the statements of `_rate_limit` take no time
themselves (the claim's "negligible processing time"). -/

/-- One `_rate_limit()` call at clock `now` with stored `last_request_time`:
the suspension taken (the remaining difference when less than the delay
has elapsed, else none) and the updated `last_request_time`, which is also
the dispatch time of the request that follows. -/
def rateLimitStep (delay now last : ℚ) : ℚ × ℚ :=
  let timeSinceLast := now - last
  let sleepTime := if timeSinceLast < delay then delay - timeSinceLast else 0
  (sleepTime, now + sleepTime)

/-- The trace of one `_make_request` call with the clock made explicit: the
outcome, the dispatch times of the HTTP requests issued (each preceded by
its own `_rate_limit()` call), and the final `last_request_time`. -/
structure ClockedTrace where
  outcome : Except PyExc JVal
  dispatches : List ℚ
  lastTime : ℚ

/-- `_make_request` with the clock explicit: `_rate_limit()` runs before the
first attempt; on a 429 the response arrives `dur1 ≥ 0` seconds after
dispatch, `time.sleep(5.0)` runs, and the retry again passes through
`_rate_limit()` before being issued. -/
def makeRequestClocked (delay : ℚ) (r1 r2 : HResp) (now last dur1 : ℚ) :
    ClockedTrace :=
  let d1 := (rateLimitStep delay now last).2
  match handleResponse r1 true with
  | .done out => ⟨out, [d1], d1⟩
  | .sleepRetry =>
    let now2 := d1 + dur1 + 5
    let d2 := (rateLimitStep delay now2 d1).2
    match handleResponse r2 false with
    | .done out => ⟨out, [d1, d2], d2⟩
    | .sleepRetry =>
      -- unreachable (`handleResponse_false_ne`)
      ⟨.error ⟨.rateLimitError, "Rate limit exceeded (429)"⟩, [d1, d2], d2⟩

/-! ### The tool server (`src/wolt_api_mcp/server.py`)

Each operation's body delegates to a freshly constructed client and wraps
everything in `try`/`except`; the delegated work's outcome (a value or a
raised exception — the handlers catch `Exception` subclasses, which is what
the taxonomy above enumerates) is made an explicit argument. -/

/-- Python's `sep.join(parts)` (used with `"\\n"` and `" and "`). -/
def joinSep (sep : String) : List String → String
  | [] => ""
  | [x] => x
  | x :: y :: xs => x ++ sep ++ joinSep sep (y :: xs)

/-- The outcome of delegated work inside a tool operation: a returned value
or a raised exception. -/
inductive PyOutcome (α : Type) where
  | ok (a : α)
  | raised (e : PyExc)

/-- The optional-city suffix of the search report (`f" in {city}"` when the
city argument is truthy). -/
def citySuffix (city : Option String) : String :=
  match city with
  | some c => if c = "" then "" else " in " ++ c
  | none => ""

/-- One numbered line of the search report: name, open/closed marker, and
the location when truthy. -/
def searchLine (i : ℕ) (r : Restaurant) : String :=
  let status := if r.is_open then "🟢 Open" else "🔴 Closed"
  let line := toString i ++ ". " ++ r.name ++ " - " ++ status
  match r.location with
  | some loc => if loc = "" then line else line ++ " - " ++ loc
  | none => line

/-- The numbered lines of a report, counting from `i` (`enumerate(..., 1)`
at the call sites). -/
def reportLines (f : ℕ → Restaurant → String) : ℕ → List Restaurant → List String
  | _, [] => []
  | i, r :: rest => f i r :: reportLines f (i + 1) rest

/-- The `search_restaurants` tool operation (`server.py`, lines 34–129),
applied to the outcome of its delegated name search: a formatted report on
success, and one of three fixed-text conversions on a raised exception
(`ValueError`, then `WoltAPIError`, then any other `Exception`). -/
def serverSearchRestaurants (query : String) (city : Option String)
    (result : PyOutcome (List Restaurant)) : String :=
  match result with
  | .ok restaurants =>
    if restaurants.isEmpty then
      "No restaurants found matching '" ++ query ++ "'" ++ citySuffix city
        ++ ". Try adjusting your search terms."
    else
      joinSep "\n"
        (("Found " ++ toString restaurants.length ++ " restaurant(s) matching '"
            ++ query ++ "'" ++ citySuffix city ++ ":")
          :: "" :: reportLines searchLine 1 restaurants)
  | .raised e =>
    if isSubclassOf e.cls .valueError then
      "Search error: " ++ e.msg
    else if isSubclassOf e.cls .woltAPIError then
      "Wolt API temporarily unavailable: " ++ e.msg
    else
      "An unexpected error occurred during restaurant search. Please try again."

/-- The `check_restaurant_availability` tool operation (`server.py`, lines
143–201), applied to the outcome of `is_restaurant_open(slug)`: a status
line on success; on a raised exception, `RestaurantNotFoundError` first,
then `WoltAPIError`, then any other `Exception`. -/
def checkRestaurantAvailability (slug : String) (result : PyOutcome Bool) : String :=
  match result with
  | .ok isOpen =>
    let status := if isOpen then "🟢 OPEN" else "🔴 CLOSED"
    "Restaurant '" ++ slug ++ "' is currently " ++ status ++ " for orders."
  | .raised e =>
    if isSubclassOf e.cls .restaurantNotFoundError then
      "Restaurant with slug '" ++ slug ++ "' not found. Please verify the slug is correct."
    else if isSubclassOf e.cls .woltAPIError then
      "Could not check restaurant availability: " ++ e.msg
    else
      "An unexpected error occurred while checking restaurant availability. Please try again."

/-- Modelled from the spec: the validated client's city-addressed nearby
fetch, `api.get_nearby_restaurants(city, max_results=…)`, which the server
invokes but whose implementation is absent from the repository (the client
under `src/` only has the coordinate-addressed form; spec §4.4 and §9
direct an implementer to add a city-name resolution ahead of it).  It is
modelled as an abstract call from the city name and result cap to an
outcome: up to `max_results` venues for the city, or a raised exception. -/
def CityFetch : Type := String → ℕ → PyOutcome (List Restaurant)

/-- The per-venue availability re-check of the `only_open` branch
(`server.py`, lines 292–303): for each venue, `is_restaurant_open(slug)`
runs inside `try:`; when it raises, the bare `except:` skips the venue.
When it returns `True`, the branch then executes
`restaurant.is_open = True` — but `is_open` is a read-only property of the
pydantic model (no setter, `extra="forbid"`), so the assignment itself
raises, the bare `except:` swallows it, and the `continue` happens before
`open_restaurants.append(restaurant)`: the venue is dropped even though
its check confirmed it open.  When the check returns `False` the venue is
simply not appended. -/
def openFilter (checks : String → PyOutcome Bool) : List Restaurant → List Restaurant
  | [] => []
  | r :: rest =>
    match checks r.slug with
    | .ok true => openFilter checks rest
    | .ok false => openFilter checks rest
    | .raised _ => openFilter checks rest

/-- The joined filter description of the no-matches message
(`" and ".join(filters_text)`). -/
def filterDesc (cuisineFilter : Option String) (onlyOpen : Bool) : String :=
  let parts :=
    (match cuisineFilter with
     | some cf => if cf = "" then [] else ["cuisine '" ++ cf ++ "'"]
     | none => []) ++ (if onlyOpen then ["currently open"] else [])
  joinSep " and " parts

/-- The optional-cuisine suffix of the nearby report header. -/
def cuisineSuffix (cuisineFilter : Option String) : String :=
  match cuisineFilter with
  | some c => if c = "" then "" else " serving " ++ c
  | none => ""

/-- One numbered line of the nearby report: the status is the `is_open`
attribute when truthy, else "⚪ Status unknown", overridden to "🟢 Open"
whenever `only_open` was requested; the location is added when truthy and
different from the city. -/
def nearbyLine (city : String) (onlyOpen : Bool) (i : ℕ) (r : Restaurant) : String :=
  let status :=
    if onlyOpen then "🟢 Open"
    else if r.is_open then "🟢 Open" else "⚪ Status unknown"
  let line := toString i ++ ". " ++ r.name ++ " - " ++ status
  match r.location with
  | some loc => if loc = "" || loc = city then line else line ++ " - " ++ loc
  | none => line

/-- The `get_nearby_restaurants` tool operation (`server.py`, lines 215–346),
applied to the outcome of the city-addressed fetch and to the per-slug
availability checker: cuisine filter on the venue name (when the filter is
truthy), the `only_open` re-check branch, and the numbered report with its
`"... showing first N results"` trailer when the post-filter count reaches
`max_results`; raised exceptions convert to the three-tier texts. -/
def serverGetNearby (fetch : CityFetch) (checks : String → PyOutcome Bool)
    (city : String) (cuisineFilter : Option String) (maxResults : ℕ)
    (onlyOpen : Bool) : String :=
  match fetch city maxResults with
  | .raised e =>
    if isSubclassOf e.cls .valueError then
      "Parameter error: " ++ e.msg
    else if isSubclassOf e.cls .woltAPIError then
      "Wolt API temporarily unavailable: " ++ e.msg
    else
      "An unexpected error occurred while getting nearby restaurants. Please try again."
  | .ok restaurants =>
    if restaurants.isEmpty then
      "No restaurants found in " ++ city
        ++ ". Please check the city name or try a different location."
    else
      let filtered1 :=
        match cuisineFilter with
        | some cf =>
          if cf = "" then restaurants
          else restaurants.filter (fun r => strContains (strLower r.name) (strLower cf))
        | none => restaurants
      let filtered2 := if onlyOpen then openFilter checks filtered1 else filtered1
      if filtered2.isEmpty then
        "No restaurants found in " ++ city ++ " matching "
          ++ filterDesc cuisineFilter onlyOpen ++ ". Try adjusting your filters."
      else
        let header :=
          "Found " ++ toString filtered2.length ++ " restaurant(s) in " ++ city
            ++ cuisineSuffix cuisineFilter
            ++ (if onlyOpen then " (open only)" else "") ++ ":"
        let body := reportLines (nearbyLine city onlyOpen) 1 filtered2
        let trailer :=
          if maxResults ≤ filtered2.length then
            ["\n... showing first " ++ toString maxResults ++ " results"]
          else []
        joinSep "\n" (header :: "" :: (body ++ trailer))

/-! ### Shared lemmas -/

theorem startsWithL_self_append (n t : List Char) :
    startsWithL n (n ++ t) = true := by
  induction n with
  | nil => rfl
  | cons c cs ih => simp [startsWithL, ih]

theorem containsSeq_of_startsWithL {n hay : List Char}
    (h : startsWithL n hay = true) : containsSeq n hay = true := by
  cases hay with
  | nil => simpa [containsSeq] using h
  | cons c cs => simp [containsSeq, h]

theorem containsSeq_cons {n hs : List Char} (c : Char)
    (h : containsSeq n hs = true) : containsSeq n (c :: hs) = true := by
  simp [containsSeq, h]

theorem containsSeq_append_left {n hay : List Char} (pre : List Char)
    (h : containsSeq n hay = true) : containsSeq n (pre ++ hay) = true := by
  induction pre with
  | nil => simpa using h
  | cons c cs ih => simpa using containsSeq_cons c ih

/-- A string always contains any middle segment of a concatenation. -/
theorem strContains_append_middle (a s b : String) :
    strContains (a ++ s ++ b) s = true := by
  have h1 : startsWithL s.toList (s.toList ++ b.toList) = true :=
    startsWithL_self_append _ _
  have h2 : containsSeq s.toList (a.toList ++ (s.toList ++ b.toList)) = true :=
    containsSeq_append_left _ (containsSeq_of_startsWithL h1)
  have hdata : (a ++ s ++ b).toList = a.toList ++ (s.toList ++ b.toList) := by
    simp [String.toList, String.data_append]
  rw [strContains, hdata]
  exact h2

theorem exceptBind_ok {ε α β : Type} {x : Except ε α} {f : α → Except ε β}
    {b : β} (h : (x >>= f) = .ok b) : ∃ a, x = .ok a ∧ f a = .ok b := by
  cases x with
  | error e => simp [Bind.bind, Except.bind] at h
  | ok a => exact ⟨a, rfl, by simpa [Bind.bind, Except.bind] using h⟩

theorem validateName_ok {v : JVal} {t : String}
    (h : validateName v = .ok t) : (∃ s, v = .jstr s ∧ t = strTrim s) ∧ t ≠ "" := by
  cases v with
  | jstr s =>
    simp only [validateName] at h
    split at h
    · exact absurd h (by simp)
    · split at h
      · exact absurd h (by simp)
      · split at h
        · exact absurd h (by simp)
        · exact ⟨⟨s, rfl, by cases h; rfl⟩, by cases h; assumption⟩
  | jnum q => simp [validateName] at h
  | jbool b => simp [validateName] at h
  | jnull => simp [validateName] at h
  | jarr xs => simp [validateName] at h
  | jobj fs => simp [validateName] at h

/-- A character of the slug class is unchanged by lower-casing (the class
holds no upper-case letter). -/
theorem slugChar_toLower {c : Char} (h : slugChar c = true) : c.toLower = c := by
  have hrange : c.toNat < 65 ∨ 90 < c.toNat := by
    simp only [slugChar, Bool.or_eq_true, Bool.and_eq_true, decide_eq_true_eq,
      beq_iff_eq] at h
    rcases h with ((⟨h1, h2⟩ | ⟨h1, h2⟩) | h) | h
    · omega
    · have g1 : ('0' : Char).toNat ≤ c.toNat := Char.le_def.mp h1
      have g2 : c.toNat ≤ ('9' : Char).toNat := Char.le_def.mp h2
      simp only [show ('0' : Char).toNat = 48 from rfl,
        show ('9' : Char).toNat = 57 from rfl] at g1 g2
      omega
    · subst h; decide
    · subst h; decide
  rw [Char.toLower, if_neg (by omega)]

theorem map_toLower_eq_self {l : List Char} (h : l.all slugChar = true) :
    l.map Char.toLower = l := by
  induction l with
  | nil => rfl
  | cons c cs ih =>
    simp only [List.all_cons, Bool.and_eq_true] at h
    simp [slugChar_toLower h.1, ih h.2]

/-- A string already drawn from the slug character class is a fixed point of
lower-casing. -/
theorem strLower_eq_self {s : String} (h : s.toList.all slugChar = true) :
    strLower s = s := by
  rw [strLower, map_toLower_eq_self (by simpa [String.toList] using h)]

theorem validateSlug_ok {v : JVal} {l : String}
    (h : validateSlug v = .ok l) :
    (∃ s, v = .jstr s ∧ l = strLower s) ∧ 3 ≤ l.length ∧ l.length ≤ 200 ∧
      l.toList.all slugChar = true := by
  cases v with
  | jstr s =>
    simp only [validateSlug] at h
    split at h
    · exact absurd h (by simp)
    · split at h
      · exact absurd h (by simp)
      · split at h
        · cases h
          have hid : strLower s = s := strLower_eq_self (by assumption)
          refine ⟨⟨s, rfl, rfl⟩, ?_, ?_, ?_⟩ <;> rw [hid]
          · omega
          · omega
          · assumption
        · exact absurd h (by simp)
  | jnum q => simp [validateSlug] at h
  | jbool b => simp [validateSlug] at h
  | jnull => simp [validateSlug] at h
  | jarr xs => simp [validateSlug] at h
  | jobj fs => simp [validateSlug] at h

theorem validate_ok {inp : RestaurantInput} {r : Restaurant}
    (h : Restaurant.validate inp = .ok r) :
    validateName inp.name = .ok r.name ∧ validateSlug inp.slug = .ok r.slug ∧
      r.cuisine_types = validateCuisines inp.cuisine_types := by
  simp only [Restaurant.validate] at h
  obtain ⟨name, hn, h⟩ := exceptBind_ok h
  obtain ⟨slug, hs, h⟩ := exceptBind_ok h
  obtain ⟨onl, ho, h⟩ := exceptBind_ok h
  obtain ⟨rat, hr, h⟩ := exceptBind_ok h
  obtain ⟨de, hd, h⟩ := exceptBind_ok h
  obtain ⟨iu, hi, h⟩ := exceptBind_ok h
  obtain ⟨loc, hl, h⟩ := exceptBind_ok h
  obtain ⟨city, hc, h⟩ := exceptBind_ok h
  cases h
  exact ⟨hn, hs, rfl⟩

/-- The record invariant every validated construction guarantees: a stripped
non-empty name and a slug of 3–200 characters drawn from the slug
character class, stored lower-case. -/
def goodRecord (r : Restaurant) : Prop :=
  (∃ s : String, r.name = strTrim s) ∧ r.name ≠ "" ∧
    3 ≤ r.slug.length ∧ r.slug.length ≤ 200 ∧ r.slug.toList.all slugChar = true

theorem validate_ok_good {inp : RestaurantInput} {r : Restaurant}
    (h : Restaurant.validate inp = .ok r) : goodRecord r := by
  obtain ⟨hn, hs, -⟩ := validate_ok h
  obtain ⟨⟨s, -, htrim⟩, hne⟩ := validateName_ok hn
  obtain ⟨-, h3, h200, hchars⟩ := validateSlug_ok hs
  exact ⟨⟨s, htrim⟩, hne, h3, h200, hchars⟩

theorem parseRestaurant_ok_good {v : RawVenue} {r : Restaurant}
    (h : parseRestaurant v = .ok r) : goodRecord r :=
  validate_ok_good h

theorem parseList_ok_good {l : List RawVenue} {rs : List Restaurant}
    (h : parseList l = .ok rs) : ∀ r ∈ rs, goodRecord r := by
  induction l generalizing rs with
  | nil =>
    simp only [parseList] at h
    cases h
    intro r hr
    simp at hr
  | cons v rest ih =>
    simp only [parseList] at h
    obtain ⟨r1, h1, h⟩ := exceptBind_ok h
    obtain ⟨rs1, h2, h⟩ := exceptBind_ok h
    cases h
    intro r hr
    rcases List.mem_cons.mp hr with h | h
    · exact h ▸ parseRestaurant_ok_good h1
    · exact ih h2 r h

theorem parseList_append (l1 l2 : List RawVenue) :
    parseList (l1 ++ l2) =
      (do
        let rs1 ← parseList l1
        let rs2 ← parseList l2
        Except.ok (rs1 ++ rs2)) := by
  induction l1 with
  | nil =>
    simp only [List.nil_append, parseList]
    cases h : parseList l2 <;> simp [Bind.bind, Except.bind]
  | cons v rest ih =>
    simp only [List.cons_append, parseList, List.append_eq]
    rw [ih]
    cases hp : parseRestaurant v with
    | error e => simp [Bind.bind, Except.bind]
    | ok r =>
      cases hr : parseList rest with
      | error e => simp [Bind.bind, Except.bind]
      | ok rs1 =>
        cases hl : parseList l2 with
        | error e => simp [Bind.bind, Except.bind]
        | ok rs2 => simp [Bind.bind, Except.bind]

theorem parseItemsLoop_eq (items : List RawItem) :
    parseItemsLoop items = parseList (items.filterMap (fun it => it.venue)) := by
  induction items with
  | nil => rfl
  | cons it rest ih =>
    cases hv : it.venue with
    | none => simp [parseItemsLoop, hv, List.filterMap_cons, ih]
    | some v => simp [parseItemsLoop, hv, List.filterMap_cons, parseList, ih]

/-- The nested section/item loops return exactly the parses of the present
venue objects, in document order. -/
theorem getNearby_eq_parseList (resp : NearbyResponse) :
    getNearbyRestaurants resp = parseList (presentVenues resp) := by
  rw [getNearbyRestaurants, presentVenues]
  induction resp.sections with
  | nil => rfl
  | cons s rest ih =>
    simp only [parseSectionsLoop, List.map_cons, List.flatten_cons,
      parseList_append, parseItemsLoop_eq, ih]

theorem getNearby_ok_good {resp : NearbyResponse} {rs : List Restaurant}
    (h : getNearbyRestaurants resp = .ok rs) : ∀ r ∈ rs, goodRecord r :=
  parseList_ok_good (getNearby_eq_parseList resp ▸ h)

theorem cuisineLoopMatch_eq_any (ql : String) (cs : List String) :
    cuisineLoopMatch ql cs = cs.any (fun c => strContains (strLower c) ql) := by
  induction cs with
  | nil => rfl
  | cons c rest ih =>
    simp only [cuisineLoopMatch, List.any_cons, ih]
    split <;> simp_all

/-- The search loop of `find_restaurants` is order-preserving filtering by
the combined name-or-cuisine match, each venue appended at most once. -/
theorem findGo_eq_filter (ql : String) (rs : List Restaurant) :
    findGo ql rs =
      rs.filter (fun r => strContains (strLower r.name) ql
        || cuisineLoopMatch ql r.cuisine_types) := by
  induction rs with
  | nil => rfl
  | cons r rest ih =>
    simp only [findGo, List.filter_cons, ih]
    by_cases h1 : strContains (strLower r.name) ql = true
    · simp [h1]
    · by_cases h2 : cuisineLoopMatch ql r.cuisine_types = true
      · simp [h1, h2]
      · simp [h1, h2]

theorem findRestaurantsFiltered_eq_filter (query : String) (rs : List Restaurant) :
    findRestaurantsFiltered query rs = rs.filter (matchesQuery query) := by
  rw [findRestaurantsFiltered, findGo_eq_filter]
  congr 1
  funext r
  rw [matchesQuery, cuisineLoopMatch_eq_any]

/-- The `only_open` branch drops every venue, whatever the checks return. -/
theorem openFilter_eq_nil (checks : String → PyOutcome Bool)
    (rs : List Restaurant) : openFilter checks rs = [] := by
  induction rs with
  | nil => rfl
  | cons r rest ih =>
    simp only [openFilter]
    cases checks r.slug with
    | ok b => cases b <;> exact ih
    | raised e => exact ih

theorem scanAnchors_cons_some {env : Upstream} {slug : String} {a : Anchor}
    {b : Bool} (rest : List Anchor)
    (h : anchorProbe env slug a = .ok (some b)) :
    scanAnchors env slug (a :: rest) = (.ok b, 1) := by
  simp only [anchorProbe] at h
  cases hc : getNearbyClient env a.lat a.lon a.radius with
  | error m => rw [hc] at h; exact absurd h (by simp [Except.map])
  | ok rs =>
    rw [hc] at h
    simp only [Except.map, Except.ok.injEq] at h
    simp [scanAnchors, hc, h]

theorem scanAnchors_cons_none {env : Upstream} {slug : String} {a : Anchor}
    (rest : List Anchor) (h : anchorProbe env slug a = .ok none) :
    scanAnchors env slug (a :: rest) =
      ((scanAnchors env slug rest).1, (scanAnchors env slug rest).2 + 1) := by
  simp only [anchorProbe] at h
  cases hc : getNearbyClient env a.lat a.lon a.radius with
  | error m => rw [hc] at h; exact absurd h (by simp [Except.map])
  | ok rs =>
    rw [hc] at h
    simp only [Except.map, Except.ok.injEq] at h
    cases hs : scanAnchors env slug rest
    simp [scanAnchors, hc, h, hs]

theorem scanAnchors_all_none {env : Upstream} {slug : String}
    {l : List Anchor} (h : ∀ a ∈ l, anchorProbe env slug a = .ok none) :
    scanAnchors env slug l =
      (.error ⟨.woltAPIError, "Unknown slug: " ++ slug⟩, l.length) := by
  induction l with
  | nil => rfl
  | cons a rest ih =>
    rw [scanAnchors_cons_none rest (h a (List.mem_cons_self a rest)),
      ih (fun x hx => h x (List.mem_cons_of_mem a hx))]
    simp

/-! ### Claims -/

/-- C4 (code bug): the program rejects the mixed-case slug the claim says is
accepted.  Pydantic v2 — the version the package imports with, via
`fastmcp` — checks `Field(pattern=...)` on the raw input before the
lower-casing after-validator runs, so constructing a `Restaurant` with
slug "Test-Restaurant_123" raises a validation error instead of storing
"test-restaurant_123"; the repository's own test
(`tests/test_models.py`, `test_restaurant_slug_validation`) and the spec
assert the claimed acceptance, so the claim is the intent and the code the
slip.  (Under pydantic v1 the `pattern=` keyword is ignored instead, and
the character-class half of the claim fails.) -/
theorem C4_mixed_case_rejected :
    validateSlug (.jstr "Test-Restaurant_123") =
      .error "slug: string does not match regex" ∧
    Restaurant.validate ⟨.jstr "Test", .jstr "Test-Restaurant_123",
        .jbool true, [], none, none, none, none, none⟩ =
      .error "slug: string does not match regex" := by
  decide

/-- C6, counterexample: the stored cuisine tags are not exactly the
string-typed entries of the raw `"tags"` list — a string tag with
surrounding whitespace is stripped by the model's validator, so the record
parsed from tags `[" Pizza ", 7, "Sushi"]` carries `["Pizza", "Sushi"]`,
not the string-typed entries `[" Pizza ", "Sushi"]`. -/
theorem C6_counterexample :
    parseRestaurant ⟨some (.jstr "Tag Test"), some (.jstr "tag-test"),
        some (.jbool true), [.jstr " Pizza ", .jnum 7, .jstr "Sushi"],
        none, none, none, []⟩ =
      .ok ⟨"Tag Test", "tag-test", true, ["Pizza", "Sushi"],
        none, none, none, none, none⟩ ∧
    stringTypedTags ⟨some (.jstr "Tag Test"), some (.jstr "tag-test"),
        some (.jbool true), [.jstr " Pizza ", .jnum 7, .jstr "Sushi"],
        none, none, none, []⟩ = [" Pizza ", "Sushi"] ∧
    (["Pizza", "Sushi"] : List String) ≠ [" Pizza ", "Sushi"] := by
  refine ⟨by decide, by decide, by decide⟩

/-- C6, amended: the client returns one venue record per present venue
object, in document order across sections and items, with no
deduplication, and each record's cuisine tags are the string-typed entries
of the raw venue's `"tags"` list with non-string entries dropped, each tag
stripped and tags empty after stripping removed; a response with two
sections holding one and two venue items yields exactly three records (a
venue repeated across sections appears repeatedly). -/
theorem C6_document_order_tags :
    (∀ resp : NearbyResponse,
      getNearbyRestaurants resp = parseList (presentVenues resp)) ∧
    (∀ (v : RawVenue) (r : Restaurant), parseRestaurant v = .ok r →
      r.cuisine_types = strippedTags v) ∧
    getNearbyRestaurants
        ⟨[⟨[⟨some ⟨some (.jstr "A"), some (.jstr "venue-a"), some (.jbool true),
              [.jstr "Pizza"], none, none, none, []⟩⟩]⟩,
          ⟨[⟨some ⟨some (.jstr "A"), some (.jstr "venue-a"), some (.jbool true),
              [.jstr "Pizza"], none, none, none, []⟩⟩,
            ⟨some ⟨some (.jstr "B"), some (.jstr "venue-b"), some (.jbool false),
              [.jstr "Sushi", .jnum 3], none, none, none, []⟩⟩]⟩]⟩ =
      .ok [⟨"A", "venue-a", true, ["Pizza"], none, none, none, none, none⟩,
        ⟨"A", "venue-a", true, ["Pizza"], none, none, none, none, none⟩,
        ⟨"B", "venue-b", false, ["Sushi"], none, none, none, none, none⟩] := by
  refine ⟨getNearby_eq_parseList, ?_, by decide⟩
  intro v r h
  obtain ⟨-, -, hc⟩ := validate_ok h
  exact hc

/-- Witness for C6's amended theorem: the per-record tag law applied to a
concrete parse. -/
theorem C6_witness :
    (⟨"Tag Test", "tag-test", true, ["Pizza", "Sushi"],
        none, none, none, none, none⟩ : Restaurant).cuisine_types =
      strippedTags ⟨some (.jstr "Tag Test"), some (.jstr "tag-test"),
        some (.jbool true), [.jstr " Pizza ", .jnum 7, .jstr "Sushi"],
        none, none, none, []⟩ :=
  C6_document_order_tags.2.1 _ _ (by decide)

/-- C7: the name/keyword search returns exactly the venues from the
5000-meter nearby query whose name contains the query case-insensitively
or that carry a cuisine tag containing it, in original order, with no
result cap, each matching venue appearing once per occurrence; the venue
named "Pizza Hut" matches query "pizza" while "Sushi Place" with tags
["Japanese"] does not. -/
theorem C7_find_restaurants_filter :
    (∀ (env : Upstream) (query : String) (lat lon : ℚ),
      findRestaurants env query lat lon =
        (getNearbyRestaurants (env lat lon 5000)).map
          (fun rs => rs.filter (matchesQuery query))) ∧
    (∀ (query : String) (rs : List Restaurant),
      findRestaurantsFiltered query rs = rs.filter (matchesQuery query)) ∧
    (∀ (query : String) (rs : List Restaurant), rs.Nodup →
      (findRestaurantsFiltered query rs).Nodup) ∧
    (∀ (query : String) (rs : List Restaurant) (r : Restaurant), r ∈ rs →
      matchesQuery query r = true → r ∈ findRestaurantsFiltered query rs) ∧
    findRestaurantsFiltered "pizza"
        [⟨"Pizza Hut", "pizza-hut", true, ["Pizza"], none, none, none, none, none⟩,
         ⟨"Sushi Place", "sushi-place", true, ["Japanese"], none, none, none, none, none⟩] =
      [⟨"Pizza Hut", "pizza-hut", true, ["Pizza"], none, none, none, none, none⟩] := by
  refine ⟨?_, findRestaurantsFiltered_eq_filter, ?_, ?_, by decide⟩
  · intro env query lat lon
    cases h : getNearbyRestaurants (env lat lon 5000) with
    | error e => simp [findRestaurants, getNearbyClient, h, Except.map]
    | ok rs =>
      simp [findRestaurants, getNearbyClient, h, Except.map,
        findRestaurantsFiltered_eq_filter]
  · intro query rs h
    rw [findRestaurantsFiltered_eq_filter]
    exact h.filter _
  · intro query rs r hm hq
    rw [findRestaurantsFiltered_eq_filter]
    exact List.mem_filter.mpr ⟨hm, hq⟩

/-- Witness for C7: the no-duplication and membership parts applied to a
concrete venue list. -/
theorem C7_witness :
    (findRestaurantsFiltered "pizza"
      [⟨"Pizza Hut", "pizza-hut", true, ["Pizza"], none, none, none, none, none⟩]).Nodup ∧
    (⟨"Pizza Hut", "pizza-hut", true, ["Pizza"], none, none, none, none, none⟩ : Restaurant) ∈
      findRestaurantsFiltered "pizza"
        [⟨"Pizza Hut", "pizza-hut", true, ["Pizza"], none, none, none, none, none⟩] :=
  ⟨C7_find_restaurants_filter.2.2.1 _ _ (by decide),
   C7_find_restaurants_filter.2.2.2.1 _ _ _ (by decide) (by decide)⟩

theorem validate_name_error {inp : RestaurantInput} {e : String}
    (h : validateName inp.name = .error e) :
    Restaurant.validate inp = .error e := by
  simp [Restaurant.validate, Bind.bind, Except.bind, h]

theorem validate_slug_error {inp : RestaurantInput} {e : String}
    (h : validateSlug inp.slug = .error e) :
    ∃ e2, Restaurant.validate inp = .error e2 := by
  cases hn : validateName inp.name with
  | error en => exact ⟨en, validate_name_error hn⟩
  | ok n =>
    exact ⟨e, by simp [Restaurant.validate, Bind.bind, Except.bind, hn, h]⟩

/-- C10: every record the validated client's nearby lookup or name search
can return has a stripped non-empty name and a slug of length at least 3
drawn from the slug character class; a raw venue object lacking its
`"name"` or its `"slug"` key (for which the parser supplies empty-string
defaults) fails model validation instead of producing a record with empty
fields. -/
theorem C10_record_invariants :
    (∀ (resp : NearbyResponse) (rs : List Restaurant),
      getNearbyRestaurants resp = .ok rs → ∀ r ∈ rs, goodRecord r) ∧
    (∀ (env : Upstream) (query : String) (lat lon : ℚ) (rs : List Restaurant),
      findRestaurants env query lat lon = .ok rs → ∀ r ∈ rs, goodRecord r) ∧
    (∀ v : RawVenue, v.name = none → ∃ e, parseRestaurant v = .error e) ∧
    (∀ v : RawVenue, v.slug = none → ∃ e, parseRestaurant v = .error e) := by
  refine ⟨fun resp rs h => getNearby_ok_good h, ?_, ?_, ?_⟩
  · intro env query lat lon rs h r hr
    rw [findRestaurants, getNearbyClient] at h
    cases hn : getNearbyRestaurants (env lat lon 5000) with
    | error e => rw [hn] at h; exact absurd h (by simp [Except.map])
    | ok rs0 =>
      rw [hn] at h
      simp only [Except.map, Except.ok.injEq] at h
      subst h
      rw [findRestaurantsFiltered_eq_filter] at hr
      exact getNearby_ok_good hn r (List.mem_of_mem_filter hr)
  · intro v hv
    refine ⟨"name: ensure this value has at least 1 character",
      validate_name_error ?_⟩
    show validateName (rawInput v).name = _
    simp [rawInput, hv, validateName]
  · intro v hv
    apply validate_slug_error (e := "slug: ensure this value has at least 3 characters")
    show validateSlug (rawInput v).slug = _
    simp [rawInput, hv, validateSlug, strLower]

/-- Witness for C10: a concrete response parse keeps the invariant, and a
concrete venue without a name (resp. slug) key fails to parse. -/
theorem C10_witness :
    (∀ r ∈ [(⟨"A", "venue-a", true, [], none, none, none, none, none⟩ : Restaurant)],
      goodRecord r) ∧
    (∃ e, parseRestaurant ⟨none, some (.jstr "venue-a"), some (.jbool true),
        [], none, none, none, []⟩ = .error e) ∧
    (∃ e, parseRestaurant ⟨some (.jstr "A"), none, some (.jbool true),
        [], none, none, none, []⟩ = .error e) :=
  ⟨C10_record_invariants.1
      ⟨[⟨[⟨some ⟨some (.jstr "A"), some (.jstr "venue-a"), some (.jbool true),
          [], none, none, none, []⟩⟩]⟩]⟩ _ (by decide),
   C10_record_invariants.2.2.1 _ rfl,
   C10_record_invariants.2.2.2 _ rfl⟩

/-- C1, counterexample: the compiled-in anchor table has 20 entries, not
19 — the claim's fixed count is off by one. -/
theorem C1_counterexample :
    israeliLocations.length = 20 ∧ israeliLocations.length ≠ 19 := by
  decide

/-- C1, amended: the country-wide lookup scans the fixed table of 20
predefined anchors in their fixed order, returns the matching venue's
online flag at the first exact slug match (a slug present only in the
third anchor's results causes exactly three anchor queries), and after all
20 anchors raises `WoltAPIError("Unknown slug: {slug}")`. -/
theorem C1_anchor_scan :
    israeliLocations.length = 20 ∧
    (∀ (env : Upstream) (slug : String) (b : Bool),
      anchorProbe env slug ⟨"Tel Aviv Center", 32.0853, 34.7818, 8000⟩ = .ok none →
      anchorProbe env slug ⟨"Tel Aviv Dizengoff", 32.0740, 34.7749, 8000⟩ = .ok none →
      anchorProbe env slug ⟨"North Tel Aviv", 32.1200, 34.8000, 12000⟩ = .ok (some b) →
      isRestaurantOpen env slug = (.ok b, 3)) ∧
    (∀ (env : Upstream) (slug : String),
      (∀ a ∈ israeliLocations, anchorProbe env slug a = .ok none) →
      isRestaurantOpen env slug =
        (.error ⟨.woltAPIError, "Unknown slug: " ++ slug⟩, 20)) := by
  refine ⟨by decide, ?_, ?_⟩
  · intro env slug b h0 h1 h2
    show scanAnchors env slug israeliLocations = _
    rw [israeliLocations]
    rw [scanAnchors_cons_none _ h0, scanAnchors_cons_none _ h1,
      scanAnchors_cons_some _ h2]
  · intro env slug h
    show scanAnchors env slug israeliLocations = _
    rw [scanAnchors_all_none h,
      show israeliLocations.length = 20 from by decide]

/-- Witness for C1's amended theorem: a venue reachable only from the third
anchor (the one with radius 12000 among the first three) is found with
exactly three queries, and an unknown slug exhausts all 20 anchors. -/
theorem C1_witness :
    isRestaurantOpen
        (fun _ _ radius =>
          if radius = 12000 then
            ⟨[⟨[⟨some ⟨some (.jstr "T"), some (.jstr "test-slug"),
                some (.jbool true), [], none, none, none, []⟩⟩]⟩]⟩
          else ⟨[]⟩)
        "test-slug" = (.ok true, 3) ∧
    isRestaurantOpen (fun _ _ _ => ⟨[]⟩) "nope" =
      (.error ⟨.woltAPIError, "Unknown slug: nope"⟩, 20) :=
  ⟨C1_anchor_scan.2.1 _ _ _ (by decide) (by decide) (by decide),
   C1_anchor_scan.2.2 _ _ (by decide)⟩

theorem handleResponse_429_true (b : JVal) :
    handleResponse (.status 429 b) true = .sleepRetry := by
  simp [handleResponse]

/-- C2: a first 429 response causes one fixed 5.0-second suspension and
exactly one retry of the identical request; a successful retry returns its
parsed body, a second 429 raises `RateLimitError("Rate limit exceeded
(429)")`, any other enumerated status on the retry is handled according to
that status, and at most one retry (two requests) ever happens. -/
theorem C2_retry_once :
    (∀ (b : JVal) (r2 : HResp) (out : Except PyExc JVal),
      handleResponse r2 false = .done out →
      makeRequest (.status 429 b) r2 = ⟨out, 2, [5]⟩) ∧
    (∀ (b body2 : JVal) (c2 : ℕ), c2 < 400 →
      makeRequest (.status 429 b) (.status c2 body2) = ⟨.ok body2, 2, [5]⟩) ∧
    (∀ b b2 : JVal, makeRequest (.status 429 b) (.status 429 b2) =
      ⟨.error ⟨.rateLimitError, "Rate limit exceeded (429)"⟩, 2, [5]⟩) ∧
    (∀ r1 r2 : HResp, (makeRequest r1 r2).requests ≤ 2) ∧
    (∀ r1 r2 : HResp, (makeRequest r1 r2).retrySleeps = [] ∨
      (makeRequest r1 r2).retrySleeps = [5]) := by
  have key : ∀ (b : JVal) (r2 : HResp) (out : Except PyExc JVal),
      handleResponse r2 false = .done out →
      makeRequest (.status 429 b) r2 = ⟨out, 2, [5]⟩ := by
    intro b r2 out h
    rw [makeRequest, handleResponse_429_true, h]
  refine ⟨key, ?_, ?_, ?_, ?_⟩
  · intro b body2 c2 h
    refine key b _ _ ?_
    rw [handleResponse]
    rw [if_neg (by omega), if_neg (by omega), if_neg (by omega),
      if_neg (by omega), if_neg (by omega)]
  · intro b b2
    exact key b _ _ (by rw [handleResponse]; norm_num)
  · intro r1 r2
    rw [makeRequest]
    cases handleResponse r1 true with
    | done out => simp
    | sleepRetry => cases handleResponse r2 false <;> simp
  · intro r1 r2
    rw [makeRequest]
    cases handleResponse r1 true with
    | done out => simp
    | sleepRetry => cases handleResponse r2 false <;> simp

/-- Witness for C2: a 429 followed by a 200 yields the 200 body after one
5-second suspension and two requests. -/
theorem C2_witness :
    makeRequest (.status 429 .jnull) (.status 200 (.jstr "payload")) =
      ⟨.ok (.jstr "payload"), 2, [5]⟩ :=
  C2_retry_once.2.1 .jnull (.jstr "payload") 200 (by omega)

/-- C8: a 404 raises `RestaurantNotFoundError("Restaurant not found
(404)")`, a 430 raises `APIUnavailableError("API unavailable - check
headers or endpoint (430)")`, any status ≥ 500 raises
`APIUnavailableError` with the status code interpolated into the message,
and the raised kinds are all subclasses of the root `WoltAPIError`. -/
theorem C8_status_mapping :
    (∀ (b : JVal) (r2 : HResp), makeRequest (.status 404 b) r2 =
      ⟨.error ⟨.restaurantNotFoundError, "Restaurant not found (404)"⟩, 1, []⟩) ∧
    (∀ (b : JVal) (r2 : HResp), makeRequest (.status 430 b) r2 =
      ⟨.error ⟨.apiUnavailableError,
        "API unavailable - check headers or endpoint (430)"⟩, 1, []⟩) ∧
    (∀ (code : ℕ) (b : JVal) (r2 : HResp), 500 ≤ code →
      makeRequest (.status code b) r2 =
        ⟨.error ⟨.apiUnavailableError,
          "Server error (" ++ toString code ++ ")"⟩, 1, []⟩) ∧
    isSubclassOf .restaurantNotFoundError .woltAPIError = true ∧
    isSubclassOf .rateLimitError .woltAPIError = true ∧
    isSubclassOf .apiUnavailableError .woltAPIError = true ∧
    isSubclassOf .woltAPIError .exception = true := by
  refine ⟨?_, ?_, ?_, by decide, by decide, by decide, by decide⟩
  · intro b r2
    rw [makeRequest, handleResponse]
    norm_num
  · intro b r2
    rw [makeRequest, handleResponse]
    norm_num
  · intro code b r2 h
    rw [makeRequest, handleResponse]
    rw [if_neg (by omega), if_neg (by omega), if_neg (by omega),
      if_pos (by omega)]

/-- Witness for C8: HTTP 503 raises the service-unavailable error with the
code in the message. -/
theorem C8_witness :
    makeRequest (.status 503 .jnull) (.status 200 .jnull) =
      ⟨.error ⟨.apiUnavailableError, "Server error (" ++ toString 503 ++ ")"⟩,
        1, []⟩ :=
  C8_status_mapping.2.2.1 503 .jnull _ (by omega)

/-- A `_rate_limit()` call never lets the following dispatch come closer
than `delay` after the stored `last_request_time`. -/
theorem rateLimitStep_ge (delay now2 last : ℚ) :
    delay ≤ (rateLimitStep delay now2 last).2 - last := by
  rw [rateLimitStep]
  by_cases h : now2 - last < delay
  · simp only [if_pos h]
    linarith
  · simp only [if_neg h]
    linarith [not_lt.mp h]

/-- C9: before every outbound call the client suspends for exactly the
remaining difference when less than the configured delay has elapsed and
updates its last-dispatched timestamp; two back-to-back calls are
dispatched at least the configured delay apart (so 1.0 second apart at the
default delay), and the 429 retry's dispatch is itself throttled the same
way. -/
theorem C9_rate_limit_spacing :
    (∀ delay now last : ℚ, now - last < delay →
      (rateLimitStep delay now last).1 = delay - (now - last) ∧
      (rateLimitStep delay now last).2 = now + (rateLimitStep delay now last).1) ∧
    (∀ delay now last now2 : ℚ,
      delay ≤ (rateLimitStep delay now2 (rateLimitStep delay now last).2).2 -
        (rateLimitStep delay now last).2) ∧
    (∀ (delay : ℚ) (r1 r2 : HResp) (now last dur1 d1 d2 : ℚ),
      (makeRequestClocked delay r1 r2 now last dur1).dispatches = [d1, d2] →
      delay ≤ d2 - d1) := by
  refine ⟨?_, fun delay now last now2 => rateLimitStep_ge delay now2 _, ?_⟩
  · intro delay now last h
    refine ⟨?_, ?_⟩ <;> simp [rateLimitStep, if_pos h]
  · intro delay r1 r2 now last dur1 d1 d2 h
    cases h1 : handleResponse r1 true with
    | done out =>
      simp only [makeRequestClocked, h1] at h
      exact absurd h (by simp)
    | sleepRetry =>
      cases h2 : handleResponse r2 false with
      | done out =>
        simp only [makeRequestClocked, h1, h2, List.cons.injEq, and_true] at h
        obtain ⟨e1, e2⟩ := h
        subst e1
        subst e2
        exact rateLimitStep_ge delay _ _
      | sleepRetry =>
        simp only [makeRequestClocked, h1, h2, List.cons.injEq, and_true] at h
        obtain ⟨e1, e2⟩ := h
        subst e1
        subst e2
        exact rateLimitStep_ge delay _ _

/-- Witness for C9: with a 1.0-second delay, a call arriving 0.5 seconds
after the previous dispatch suspends exactly 0.5 seconds, and the next
dispatch stays at least 1 second after the previous one. -/
theorem C9_witness :
    ((rateLimitStep 1 (1/2) 0).1 = 1 - (1/2 - 0) ∧
      (rateLimitStep 1 (1/2) 0).2 = 1/2 + (rateLimitStep 1 (1/2) 0).1) ∧
    (1 : ℚ) ≤ (rateLimitStep 1 (1/2) (rateLimitStep 1 (1/4) 0).2).2 -
      (rateLimitStep 1 (1/4) 0).2 :=
  ⟨C9_rate_limit_spacing.1 1 (1/2) 0 (by norm_num),
   C9_rate_limit_spacing.2.1 1 (1/4) 0 (1/2)⟩

theorem strContains_append_right (x y s : String)
    (h : strContains y s = true) : strContains (x ++ y) s = true := by
  rw [strContains] at h ⊢
  have hdata : (x ++ y).toList = x.toList ++ y.toList := by
    simp [String.toList, String.data_append]
  rw [hdata]
  exact containsSeq_append_left _ h

/-- C5: every tool operation converts any raised exception of its delegated
work into one of its fixed descriptive texts instead of letting it escape
(each operation is a total function to a text result); in particular,
under an upstream not-found condition, `check_restaurant_availability`
returns a line naming the slug and asking the caller to verify it. -/
theorem C5_errors_contained :
    (∀ slug m : String,
      checkRestaurantAvailability slug (.raised ⟨.restaurantNotFoundError, m⟩) =
        "Restaurant with slug '" ++ slug ++
          "' not found. Please verify the slug is correct." ∧
      strContains (checkRestaurantAvailability slug
        (.raised ⟨.restaurantNotFoundError, m⟩)) slug = true ∧
      strContains (checkRestaurantAvailability slug
        (.raised ⟨.restaurantNotFoundError, m⟩)) "not found" = true) ∧
    (∀ (slug : String) (e : PyExc),
      checkRestaurantAvailability slug (.raised e) =
          "Restaurant with slug '" ++ slug ++
            "' not found. Please verify the slug is correct." ∨
        checkRestaurantAvailability slug (.raised e) =
          "Could not check restaurant availability: " ++ e.msg ∨
        checkRestaurantAvailability slug (.raised e) =
          "An unexpected error occurred while checking restaurant availability. Please try again.") ∧
    (∀ (query : String) (city : Option String) (e : PyExc),
      serverSearchRestaurants query city (.raised e) = "Search error: " ++ e.msg ∨
        serverSearchRestaurants query city (.raised e) =
          "Wolt API temporarily unavailable: " ++ e.msg ∨
        serverSearchRestaurants query city (.raised e) =
          "An unexpected error occurred during restaurant search. Please try again.") ∧
    (∀ (checks : String → PyOutcome Bool) (city : String)
        (cf : Option String) (mr : ℕ) (oo : Bool) (e : PyExc),
      serverGetNearby (fun _ _ => .raised e) checks city cf mr oo =
          "Parameter error: " ++ e.msg ∨
        serverGetNearby (fun _ _ => .raised e) checks city cf mr oo =
          "Wolt API temporarily unavailable: " ++ e.msg ∨
        serverGetNearby (fun _ _ => .raised e) checks city cf mr oo =
          "An unexpected error occurred while getting nearby restaurants. Please try again.") := by
  refine ⟨?_, ?_, ?_, ?_⟩
  · intro slug m
    have hmsg : checkRestaurantAvailability slug
        (.raised ⟨.restaurantNotFoundError, m⟩) =
        "Restaurant with slug '" ++ slug ++
          "' not found. Please verify the slug is correct." := by
      simp [checkRestaurantAvailability, isSubclassOf, superChain, superclass]
    refine ⟨hmsg, ?_, ?_⟩
    · rw [hmsg]
      exact strContains_append_middle _ _ _
    · rw [hmsg, String.append_assoc]
      refine strContains_append_right _ _ _ ?_
      refine strContains_append_right _ _ _ ?_
      decide
  · intro slug e
    obtain ⟨cls, m⟩ := e
    cases cls <;>
      simp [checkRestaurantAvailability, isSubclassOf, superChain, superclass]
  · intro query city e
    obtain ⟨cls, m⟩ := e
    cases cls <;>
      simp [serverSearchRestaurants, isSubclassOf, superChain, superclass]
  · intro checks city cf mr oo e
    obtain ⟨cls, m⟩ := e
    cases cls <;>
      simp [serverGetNearby, isSubclassOf, superChain, superclass]

/-- C3 (code bug): under `only_open` the operation drops every venue, even
one whose availability check confirms it open — `restaurant.is_open =
True` assigns to a setter-less property of the pydantic model, the raised
error is swallowed by the bare `except:`, and the `continue` skips the
append (`openFilter` is always empty); a single confirmed-open fetched
venue therefore yields the no-matches message instead of a one-line
report. -/
theorem C3_only_open_drops_all :
    (∀ (checks : String → PyOutcome Bool) (rs : List Restaurant),
      openFilter checks rs = []) ∧
    serverGetNearby
        (fun _ _ => .ok [⟨"Open Venue", "open-venue", true, [],
          none, none, none, none, none⟩])
        (fun _ => .ok true) "tel-aviv" none 20 true =
      "No restaurants found in tel-aviv matching currently open. Try adjusting your filters." :=
  ⟨openFilter_eq_nil, by decide⟩

end WoltSDK
